import Mathlib

/-!
Verification of the bootstrap module of vue-fastapi-admin (src/app/init file):
the ORM configuration builder, the static-serving switch with the 404/SPA
exception handler it registers, and the startup task sequence.
-/

namespace AppInit

/-- An environment: a partial map from variable names to string values,
mirroring os.getenv, which yields None for an absent variable. -/
abbrev Env := String → Option String

/-- The credential mapping built by build_orm_config: either the five MYXQL
fields, each possibly absent exactly as os.getenv returned it, or the single
sqlite file path. -/
inductive Credentials where
  | mysql (host port user password database : Option String)
  | sqlite (file_path : String)
deriving DecidableEq

/-- One entry of the connections dict: the engine string and the credentials. -/
structure Connection where
  engine : String
  credentials : Credentials
deriving DecidableEq

/-- The dict returned by build_orm_config. The connections dict has a single
key, kept here as an association list; the apps entry carries the model module
list and the default connection name. -/
structure OrmConfig where
  connections : List (String × Connection)
  models : List String
  default_connection : String
  use_tz : Bool
  timezone : String
deriving DecidableEq

/-- Embedding of build_orm_config. The Python function compares the (possibly
absent) DATABASE_TYPE token against the two known names, rebinding db_type to
"sqlite" in the fallback branch, then assembles one dict whose single
connection key, engine suffix and default_connection all use the final
db_type value. -/
def build_orm_config (db_type0 : Option String) (env : Env) (base_dir : String) : OrmConfig :=
  let branch : String × Credentials :=
    if db_type0 = some "mysql" then
      ("mysql", Credentials.mysql (env "MYXQL_HOST") (env "MYXQL_PORT")
        (env "MYXQL_USER") (env "MYXQL_PASSWORD") (env "MYXQL_DATABASE"))
    else if db_type0 = some "sqlite" then
      ("sqlite", Credentials.sqlite (base_dir ++ "/db.sqlite3"))
    else
      ("sqlite", Credentials.sqlite (base_dir ++ "/db.sqlite3"))
  let db_type := branch.1
  { connections := [(db_type,
      { engine := "tortoise.backends." ++ db_type, credentials := branch.2 })],
    models := ["app.models"],
    default_connection := db_type,
    use_tz := false,
    timezone := "Asia/Shanghai" }

/-- The responses the bootstrap layer can produce for a request that raised an
HTTPException: the redirect and JSON responses built by the handler registered
in load_static, and the plain-text response of the framework default handler
that answers when no custom handler was registered. -/
inductive Response where
  | redirect (url : String)
  | json (status : Nat) (detail : String)
  | plain (status : Nat) (detail : String)
  | static_file (path : String)
deriving DecidableEq

/-- The starlette status constant used by the handler. -/
def HTTP_404_NOT_FOUND : Nat := 404

/-- Embedding of the str startswith test of Python: the candidate head is a
prefix of the character sequence of the path. -/
def starts_with (s pre : String) : Bool :=
  pre.data.isPrefixOf s.data

/-- Embedding of the anonymous HTTPException handler registered inside
load_static: a 404 on a path not starting with /api becomes a redirect to the
root, a 404 on an /api path becomes a JSON 404 with detail Not Found, and any
other status is passed through as JSON with the original detail. -/
def load_static_exception_handler (path : String) (status : Nat) (detail : String) : Response :=
  if status = HTTP_404_NOT_FOUND then
    if !(starts_with path "/api") then
      Response.redirect "/"
    else
      Response.json HTTP_404_NOT_FOUND "Not Found"
  else
    Response.json status detail

/-- What the bootstrap installed on the app object: whether the static dist
mount exists and whether the HTTPException handler from load_static was
registered. -/
structure AppState where
  static_mounted : Bool
  handler_installed : Bool
deriving DecidableEq

/-- The app before load_dotenv_file runs: nothing mounted, no custom handler. -/
def initial_app_state : AppState :=
  { static_mounted := false, handler_installed := false }

/-- Embedding of load_static: mounts the static dist directory at the root and
registers the HTTPException handler on the app. -/
def load_static (st : AppState) : AppState :=
  { st with static_mounted := true, handler_installed := true }

/-- Embedding of load_dotenv_file: calls load_static exactly when the
LOAD_STATIC_FROM_LOCAL variable is the string true (otherwise only a warning
is logged), then builds the ORM config from the DATABASE_TYPE variable. -/
def load_dotenv_file (env : Env) (base_dir : String) : AppState × OrmConfig :=
  let st :=
    if env "LOAD_STATIC_FROM_LOCAL" = some "true" then
      load_static initial_app_state
    else
      initial_app_state
  (st, build_orm_config (env "DATABASE_TYPE") env base_dir)

/-- How an HTTPException raised during request handling is answered: by the
handler from load_static when it was registered, and otherwise by the
framework default HTTPException handler, which returns a plain-text body
carrying the exception detail with the exception status. -/
def handle_http_exception (st : AppState) (path : String) (status : Nat) (detail : String) : Response :=
  if st.handler_installed then
    load_static_exception_handler path status detail
  else
    Response.plain status detail

/-- The two one-time startup tasks awaited by startup_event, in source order. -/
inductive InitTask where
  | superuser
  | menus
deriving DecidableEq

/-- Embedding of startup_event: awaits init_superuser, then init_menus; an
exception from either task propagates out of the callback and stops the
sequence. The behavior of the two collaborator tasks is a parameter; the
result records which tasks were invoked, in order, and the outcome. -/
def startup_event (run : InitTask → Except String Unit) : List InitTask × Except String Unit :=
  match run InitTask.superuser with
  | Except.error e => ([InitTask.superuser], Except.error e)
  | Except.ok _ =>
    match run InitTask.menus with
    | Except.error e => ([InitTask.superuser, InitTask.menus], Except.error e)
    | Except.ok _ => ([InitTask.superuser, InitTask.menus], Except.ok ())

/-- A task environment where superuser initialization fails. -/
def failing_superuser_run : InitTask → Except String Unit := fun t =>
  match t with
  | InitTask.superuser => Except.error "superuser init failed"
  | InitTask.menus => Except.ok ()

/-- Claim C1: for every database-type token other than mysql and sqlite,
including the absent one, build_orm_config returns the sqlite configuration
whose credentials are the single file path base_dir/db.sqlite3; being a total
Lean function over all inputs, it never raises. -/
theorem C1_fallback_sqlite (db_type : Option String) (env : Env) (base_dir : String)
    (h1 : db_type ≠ some "mysql") (h2 : db_type ≠ some "sqlite") :
    build_orm_config db_type env base_dir =
      { connections := [("sqlite",
          { engine := "tortoise.backends.sqlite",
            credentials := Credentials.sqlite (base_dir ++ "/db.sqlite3") })],
        models := ["app.models"],
        default_connection := "sqlite",
        use_tz := false,
        timezone := "Asia/Shanghai" } := by
  simp [build_orm_config, h1, h2]

/-- Witness for C1 at the absent token with an empty environment. -/
theorem C1_fallback_sqlite_witness :
    (none : Option String) ≠ some "mysql" ∧ (none : Option String) ≠ some "sqlite" ∧
    build_orm_config none (fun _ => none) "base" =
      { connections := [("sqlite",
          { engine := "tortoise.backends.sqlite",
            credentials := Credentials.sqlite ("base" ++ "/db.sqlite3") })],
        models := ["app.models"],
        default_connection := "sqlite",
        use_tz := false,
        timezone := "Asia/Shanghai" } :=
  ⟨by simp, by simp,
    C1_fallback_sqlite none (fun _ => none) "base" (by simp) (by simp)⟩

/-- Claim C2: for every request raising an HTTP error with status 404, the
handler redirects to the root when the path does not start with /api, and
returns a JSON 404 with detail Not Found when it does. -/
theorem C2_not_found_handling (path detail : String) :
    (starts_with path "/api" = false →
      load_static_exception_handler path 404 detail = Response.redirect "/") ∧
    (starts_with path "/api" = true →
      load_static_exception_handler path 404 detail = Response.json 404 "Not Found") := by
  constructor <;> intro h <;>
    simp [load_static_exception_handler, HTTP_404_NOT_FOUND, h]

/-- Witness for C2 at a client-side route and at an unmatched API path. -/
theorem C2_not_found_handling_witness :
    load_static_exception_handler "/dashboard/settings" 404 "Not Found" = Response.redirect "/" ∧
    load_static_exception_handler "/api/unknown" 404 "Not Found" = Response.json 404 "Not Found" :=
  ⟨(C2_not_found_handling "/dashboard/settings" "Not Found").1 (by decide),
   (C2_not_found_handling "/api/unknown" "Not Found").2 (by decide)⟩

/-- Claim C3: the startup callback runs the superuser task first and the menu
task second, and a failure of the superuser task means the menu task is never
invoked and the error propagates out of the callback. -/
theorem C3_startup_order (run : InitTask → Except String Unit) :
    (run InitTask.superuser = Except.ok () →
      (startup_event run).1 = [InitTask.superuser, InitTask.menus]) ∧
    (∀ e, run InitTask.superuser = Except.error e →
      InitTask.menus ∉ (startup_event run).1 ∧
      (startup_event run).2 = Except.error e) := by
  unfold startup_event
  cases h : run InitTask.superuser with
  | error e => simp [h]
  | ok u => cases hm : run InitTask.menus <;> simp [h, hm]

/-- Witness for C3 with a run in which superuser initialization fails. -/
theorem C3_startup_order_witness :
    InitTask.menus ∉ (startup_event failing_superuser_run).1 ∧
    (startup_event failing_superuser_run).2 = Except.error "superuser init failed" :=
  (C3_startup_order failing_superuser_run).2 "superuser init failed" rfl

/-- Claim C5: for the mysql token, the configuration carries the mysql backend
and its credentials are exactly the five fields copied verbatim from the
MYXQL environment variables, absent ones passing through as None. -/
theorem C5_mysql_credentials (env : Env) (base_dir : String) :
    build_orm_config (some "mysql") env base_dir =
      { connections := [("mysql",
          { engine := "tortoise.backends.mysql",
            credentials := Credentials.mysql (env "MYXQL_HOST") (env "MYXQL_PORT")
              (env "MYXQL_USER") (env "MYXQL_PASSWORD") (env "MYXQL_DATABASE") })],
        models := ["app.models"],
        default_connection := "mysql",
        use_tz := false,
        timezone := "Asia/Shanghai" } := by
  simp [build_orm_config]

/-- Claim C6: for every token and environment the configuration declares
exactly one connection, and its key equals the default connection name. -/
theorem C6_single_default_connection (db_type : Option String) (env : Env) (base_dir : String) :
    (build_orm_config db_type env base_dir).connections.map Prod.fst =
      [(build_orm_config db_type env base_dir).default_connection] := by
  unfold build_orm_config
  by_cases h1 : db_type = some "mysql"
  · simp [h1]
  · by_cases h2 : db_type = some "sqlite" <;> simp [h1, h2]

/-- Claim C7: every HTTP error with a status other than 404 is passed through
by the handler with the same status and the original detail, on any path. -/
theorem C7_pass_through (path : String) (status : Nat) (detail : String)
    (h : status ≠ 404) :
    load_static_exception_handler path status detail = Response.json status detail := by
  simp [load_static_exception_handler, HTTP_404_NOT_FOUND, h]

/-- Witness for C7 at status 422 on an API path. -/
theorem C7_pass_through_witness :
    (422 : Nat) ≠ 404 ∧
    load_static_exception_handler "/api/items" 422 "Unprocessable Entity" =
      Response.json 422 "Unprocessable Entity" :=
  ⟨by decide, C7_pass_through "/api/items" 422 "Unprocessable Entity" (by decide)⟩

/-- Claim C8: static serving is enabled exactly when LOAD_STATIC_FROM_LOCAL is
the string true; every other value, absence included, leaves it disabled. -/
theorem C8_static_switch (env : Env) (base_dir : String) :
    (load_dotenv_file env base_dir).1.static_mounted = true ↔
      env "LOAD_STATIC_FROM_LOCAL" = some "true" := by
  by_cases h : env "LOAD_STATIC_FROM_LOCAL" = some "true" <;>
    simp [load_dotenv_file, load_static, initial_app_state, h]

/-- Claim C9: for every token and environment, the model-sources list, the
use_tz flag and the timezone of the configuration are the fixed constants. -/
theorem C9_constant_fields (db_type : Option String) (env : Env) (base_dir : String) :
    (build_orm_config db_type env base_dir).models = ["app.models"] ∧
    (build_orm_config db_type env base_dir).use_tz = false ∧
    (build_orm_config db_type env base_dir).timezone = "Asia/Shanghai" := by
  refine ⟨?_, ?_, ?_⟩ <;> simp [build_orm_config]

/-- Claim C10: the API test in the 404 branch is a plain string test on the
leading characters: the handler returns the JSON 404 envelope exactly when the
path starts with the characters /api, and in particular the path /apifoo,
which is not under the /api/ route segment, gets the JSON envelope and not the
redirect. -/
theorem C10_plain_string_check :
    (∀ path detail : String,
      load_static_exception_handler path 404 detail = Response.json 404 "Not Found" ↔
        starts_with path "/api" = true) ∧
    load_static_exception_handler "/apifoo" 404 "x" = Response.json 404 "Not Found" ∧
    starts_with "/apifoo" "/api/" = false := by
  refine ⟨fun path detail => ?_, by decide, by decide⟩
  by_cases h : starts_with path "/api" <;>
    simp [load_static_exception_handler, HTTP_404_NOT_FOUND, h]

/-- Claim C4, as stated, is false: the SPA exception handler is registered
inside load_static, so when static serving is disabled no handler exists and
an unmatched non-API path is answered by the framework default plain response,
not by the translator output, which would be a redirect to the root. This
counterexample evaluates the dispatch with an empty environment. -/
theorem C4_counterexample :
    (load_dotenv_file (fun _ => none) "base").1.static_mounted = false ∧
    handle_http_exception (load_dotenv_file (fun _ => none) "base").1 "/dashboard" 404 "Not Found" ≠
      load_static_exception_handler "/dashboard" 404 "Not Found" := by
  constructor
  · rfl
  · decide

/-- Claim C4 amended: when static serving is disabled, no static mount is
installed, the custom exception handler is not installed either, and an
unmatched path is answered by the framework default plain 404 response, which
is not a static-file response. -/
theorem C4_no_static_no_handler (env : Env) (base_dir : String) (path detail : String)
    (h : env "LOAD_STATIC_FROM_LOCAL" ≠ some "true") :
    (load_dotenv_file env base_dir).1.static_mounted = false ∧
    (load_dotenv_file env base_dir).1.handler_installed = false ∧
    handle_http_exception (load_dotenv_file env base_dir).1 path 404 detail =
      Response.plain 404 detail ∧
    ∀ p, handle_http_exception (load_dotenv_file env base_dir).1 path 404 detail ≠
      Response.static_file p := by
  simp [load_dotenv_file, initial_app_state, handle_http_exception, h]

/-- Witness for the amended C4 with an empty environment. -/
theorem C4_no_static_no_handler_witness :
    ((fun _ => (none : Option String)) "LOAD_STATIC_FROM_LOCAL" ≠ some "true") ∧
    ((load_dotenv_file (fun _ => none) "b").1.static_mounted = false ∧
     (load_dotenv_file (fun _ => none) "b").1.handler_installed = false ∧
     handle_http_exception (load_dotenv_file (fun _ => none) "b").1 "/y" 404 "d" =
       Response.plain 404 "d" ∧
     ∀ p, handle_http_exception (load_dotenv_file (fun _ => none) "b").1 "/y" 404 "d" ≠
       Response.static_file p) :=
  ⟨by simp, C4_no_static_no_handler (fun _ => none) "b" "/y" "d" (by simp)⟩

end AppInit
